import Mathlib

/-!
Shallow embedding of the security core of the HIPAA-Training-System repository
(src/hipaa_training/security.py and src/main.py), together with proofs of the
claims about it.  Time is modelled in seconds as `Int`; Python exceptions are
modelled with `Except` / explicit outcome values; the external libraries
(Fernet, json, base64, the file system, sqlite) are modelled by their
interfaces, with their contracts taken as explicit hypotheses or injected
outcomes, while every piece of control flow of the repository itself is
translated directly from the source.
-/

namespace HIPAA

/-- The exception taxonomy of security.py (SecurityError subclasses). -/
inductive SecError where
  | validationError (msg : String)
  | encryptionError (msg : String)
  | rateLimitExceeded (msg : String)
  | circuitBreakerOpenErr
  | auditError (msg : String)
  deriving Repr, DecidableEq

/-- Whether an `Except` computation succeeded. -/
def exceptIsOk : Except ε α → Bool
  | Except.ok _ => true
  | Except.error _ => false

/-! ## Rate limiter (SecurityManager._check_rate_limit, "encryption" branch) -/

/-- Capacity of the encryption sliding window:
`self._encryption_window = deque(maxlen=1000)` in `_setup_rate_limiting`. -/
def ENC_WINDOW_MAXLEN : Nat := 1000

/-- The pruning loop `while window and window[0] < window_start: window.popleft()`.
The deque front is the head of the list. -/
def pruneWindow (windowStart : Int) : List Int → List Int
  | [] => []
  | t :: rest => if t < windowStart then pruneWindow windowStart rest else t :: rest

/-- `deque.append` with a `maxlen` bound: when the deque is full, appending
evicts from the front. -/
def dequeAppend (maxlen : Nat) (q : List Int) (x : Int) : List Int :=
  if maxlen ≤ q.length then (q.drop (q.length + 1 - maxlen)) ++ [x] else q ++ [x]

/-- `SecurityManager._check_rate_limit("encryption")`: prune entries older than
60 seconds, refuse if the window already holds `limit` entries, otherwise
record the current time.  Returns the updated window. -/
def check_rate_limit_encryption (limit : Nat) (now : Int) (window : List Int) :
    Except SecError (List Int) :=
  let windowStart := now - 60
  let pruned := pruneWindow windowStart window
  if limit ≤ pruned.length then
    Except.error (SecError.rateLimitExceeded "Rate limit exceeded: encryption")
  else
    Except.ok (dequeAppend ENC_WINDOW_MAXLEN pruned now)

/-- Iterate the rate-limit check over a list of call times, stopping at the
first refusal. -/
def iterRateLimit (limit : Nat) (window : List Int) : List Int → Except SecError (List Int)
  | [] => Except.ok window
  | t :: ts =>
    match check_rate_limit_encryption limit t window with
    | Except.ok window1 => iterRateLimit limit window1 ts
    | Except.error e => Except.error e

/-! ## Circuit breaker (class CircuitBreaker) -/

/-- The three breaker states. -/
inductive CBState where
  | CLOSED
  | OPEN
  | HALF_OPEN
  deriving Repr, DecidableEq

/-- The mutable fields of a CircuitBreaker instance. -/
structure CircuitBreaker where
  failure_threshold : Nat
  recovery_timeout : Int
  failures : Nat
  last_failure_time : Option Int
  state : CBState
  deriving Repr, DecidableEq

/-- `CircuitBreaker.__init__(failure_threshold, recovery_timeout)`. -/
def CircuitBreaker.init (threshold : Nat) (timeout : Int) : CircuitBreaker :=
  { failure_threshold := threshold
    recovery_timeout := timeout
    failures := 0
    last_failure_time := none
    state := CBState.CLOSED }

/-- Outcome of `CircuitBreaker.call`: fast refusal, or the protected
result of the protected function re-raised or returned. -/
inductive CBOutcome (ε α : Type) where
  | breakerOpen
  | result (r : Except ε α)
  deriving Repr

/-- Result of one `CircuitBreaker.call`: the updated breaker, the outcome, and
whether the protected function was invoked at all. -/
structure CBCall (ε α : Type) where
  cb : CircuitBreaker
  outcome : CBOutcome ε α
  invoked : Bool
  deriving Repr

/-- `CircuitBreaker.call(func)`, with the behaviour of the protected function at
this call injected as `fres` and `now` the current `time.time()`.  When the
state is OPEN and the timeout has not yet elapsed, `fres` is not consumed
(`invoked = false`). -/
def CircuitBreaker.call (cb : CircuitBreaker) (now : Int) (fres : Except ε α) :
    CBCall ε α :=
  let gate : Option CircuitBreaker :=
    if cb.state = CBState.OPEN then
      if cb.recovery_timeout < now - cb.last_failure_time.getD 0 then
        some { cb with state := CBState.HALF_OPEN }
      else none
    else some cb
  match gate with
  | none => ⟨cb, CBOutcome.breakerOpen, false⟩
  | some cb1 =>
    match fres with
    | Except.ok a =>
      if cb1.state = CBState.HALF_OPEN then
        ⟨{ cb1 with state := CBState.CLOSED, failures := 0 },
          CBOutcome.result (Except.ok a), true⟩
      else
        ⟨cb1, CBOutcome.result (Except.ok a), true⟩
    | Except.error e =>
      let f := cb1.failures + 1
      ⟨{ cb1 with
          failures := f
          last_failure_time := some now
          state := if cb.failure_threshold ≤ f then CBState.OPEN else cb1.state },
        CBOutcome.result (Except.error e), true⟩

/-- Breakers reachable from `CircuitBreaker.init` by a sequence of calls. -/
inductive CBReach (threshold : Nat) (timeout : Int) : CircuitBreaker → Prop where
  | start : CBReach threshold timeout (CircuitBreaker.init threshold timeout)
  | step (cb : CircuitBreaker) (now : Int) (fres : Except String Unit) :
      CBReach threshold timeout cb →
      CBReach threshold timeout (CircuitBreaker.call cb now fres).cb

/-! ## Versioned encryption (SecurityManager.encrypt_data / decrypt_data) -/

/-- Python `str.strip()`: remove leading and trailing whitespace. -/
def pyStrip (s : String) : String :=
  String.mk
    (((s.toList.dropWhile Char.isWhitespace).reverse.dropWhile
      Char.isWhitespace).reverse)

/-- A JSON-object metadata dict, modelled as an association list. -/
abbrev Metadata := List (String × String)

/-- The envelope built in `encrypt_data`:
`payload = {"version": ..., "timestamp": ..., "data": ..., "metadata": ...}`. -/
structure Payload where
  version : String
  timestamp : String
  data : String
  metadata : Metadata
  deriving Repr, DecidableEq

/-- Interface of the external libraries used by encrypt_data/decrypt_data:
`json.dumps`/`json.loads` (wire type `J`), `Fernet.encrypt`/`Fernet.decrypt`
(wire type `C`), and `base64.urlsafe_b64encode`/`b64decode` (producing the
token string).  Decoders return `none` on the library exceptions
(JSONDecodeError, InvalidToken, binascii.Error); their round-trip contracts
are taken as hypotheses of the theorems, not baked in here. -/
structure CryptoStack (J C : Type) where
  jsonDumps : Payload → J
  jsonLoads : J → Option Payload
  fernetEncrypt : J → C
  fernetDecrypt : C → Option J
  b64encode : C → String
  b64decode : String → Option C

/-- The fields of SecurityConfig that encrypt/decrypt and the claims need. -/
structure SecurityCfg where
  encryption_version : String
  max_data_size : Nat
  max_encryptions_per_minute : Nat
  session_timeout_minutes : Nat
  deriving Repr, DecidableEq

/-- `SecurityManager.encrypt_data(data, metadata)` under configuration `cfg`,
with `now` the current time, `window` the encryption rate-limit window and
`timestamp` the `datetime.now(timezone.utc).isoformat()` string.  Returns the
token together with the updated window.  `metadata or {}` maps a missing
metadata argument to the empty dict. -/
def encrypt_data (cs : CryptoStack J C) (cfg : SecurityCfg) (now : Int)
    (window : List Int) (timestamp : String) (data : String)
    (metadata : Option Metadata) : Except SecError (String × List Int) :=
  match check_rate_limit_encryption cfg.max_encryptions_per_minute now window with
  | Except.error e => Except.error e
  | Except.ok window1 =>
    if pyStrip data = "" then
      Except.error (SecError.validationError "Data cannot be empty")
    else if cfg.max_data_size < data.length then
      Except.error (SecError.validationError "Data exceeds max_data_size bytes")
    else
      let payload : Payload :=
        { version := cfg.encryption_version
          timestamp := timestamp
          data := data
          metadata := metadata.getD [] }
      let encrypted := cs.fernetEncrypt (cs.jsonDumps payload)
      Except.ok (cs.b64encode encrypted, window1)

/-- `SecurityManager.decrypt_data(encrypted_data)` under configuration `cfg`.
A version mismatch raises EncryptionError inside the try block and is
re-wrapped by the generic handler as a decryption failure, still an
EncryptionError. -/
def decrypt_data (cs : CryptoStack J C) (cfg : SecurityCfg)
    (encrypted_data : String) : Except SecError (String × Metadata) :=
  if pyStrip encrypted_data = "" then
    Except.error (SecError.validationError "Invalid encrypted data")
  else
    match cs.b64decode encrypted_data with
    | none => Except.error (SecError.encryptionError "Decryption failed: bad base64")
    | some encryptedBytes =>
      match cs.fernetDecrypt encryptedBytes with
      | none => Except.error (SecError.encryptionError "Invalid encryption token")
      | some decrypted =>
        match cs.jsonLoads decrypted with
        | none => Except.error (SecError.encryptionError "Payload corruption")
        | some payload =>
          if payload.version ≠ cfg.encryption_version then
            Except.error
              (SecError.encryptionError "Decryption failed: Version mismatch")
          else
            Except.ok (payload.data, payload.metadata)

/-! ## Atomic file operations (main.py, AtomicFileManager / CloudDataManager) -/

/-- Failure injection for the fallible steps of `atomic_json_write`:
directory creation, `NamedTemporaryFile` creation, `json.dump` into the temp
file, the final `shutil.move`, and the best-effort `temp_path.unlink()` of the
cleanup handler. -/
structure WriteEnv where
  mkdirOk : Bool
  tempCreateOk : Bool
  dumpOk : Bool
  moveOk : Bool
  unlinkOk : Bool
  deriving Repr, DecidableEq

/-- The slice of the file system `atomic_json_write` touches: the target file
and the temp file it creates next to it (`dir=filepath.parent`), each `none`
when absent.  `leftover` is whatever `json.dump` managed to write
before failing. -/
structure FS where
  target : Option String
  temp : Option String
  deriving Repr, DecidableEq

/-- `AtomicFileManager.atomic_json_write(data, filepath)`, with `ser` the
serialized JSON of `data`.  Faithful detail: `temp_path` is assigned only
AFTER `json.dump` returns, so when the dump itself raises, `temp_path` is
still `None` and the cleanup `if temp_path and temp_path.exists()` skips the
unlink, leaving the temp file on disk. -/
def atomic_json_write (env : WriteEnv) (ser leftover : String) (fs : FS) :
    Bool × FS :=
  if ¬ env.mkdirOk then
    (false, fs)
  else if ¬ env.tempCreateOk then
    (false, fs)
  else if ¬ env.dumpOk then
    (false, { fs with temp := some leftover })
  else
    let fs1 : FS := { fs with temp := some ser }
    if ¬ env.moveOk then
      (false, if env.unlinkOk then { fs1 with temp := none } else fs1)
    else
      (true, { target := some ser, temp := none })

/-- The state of the file `atomic_json_read` is pointed at: absent, present
but not valid JSON (with raw contents), or valid JSON deserializing to a
value of `V`. -/
inductive ReadFile (V : Type) where
  | absent
  | corrupt (content : String)
  | valid (value : V)
  deriving Repr, DecidableEq

/-- Observable effects of one `atomic_json_read` call. -/
structure ReadEffects (V : Type) where
  result : V
  backups : List String
  sourceAfter : ReadFile V
  consoleMsgs : List String
  auditEvents : List String
  deriving Repr, DecidableEq

/-- `CloudDataManager.create_backup(source_path)`: missing source is a
success with no copy; otherwise `shutil.copy2` the contents into a
timestamped backup file, returning `false` (not raising) if the copy fails. -/
def create_backup (copyOk : Bool) (source : Option String) (backups : List String) :
    Bool × List String :=
  match source with
  | none => (true, backups)
  | some content => if copyOk then (true, backups ++ [content]) else (false, backups)

/-- `AtomicFileManager.atomic_json_read(filepath, default)` with the
`default is None -> {}` replacement already applied to `default`.  On a
JSONDecodeError it prints a corruption warning, calls `create_backup` on the
corrupt file, prints an excerpt and a restore notice, and returns the
default; the corrupt source file is only copied, never moved or deleted.  No
audit event is emitted anywhere on this path. -/
def atomic_json_read (copyOk : Bool) (f : ReadFile V) (default : V) :
    ReadEffects V :=
  match f with
  | ReadFile.absent =>
    { result := default, backups := [], sourceAfter := f
      consoleMsgs := [], auditEvents := [] }
  | ReadFile.valid v =>
    { result := v, backups := [], sourceAfter := f
      consoleMsgs := [], auditEvents := [] }
  | ReadFile.corrupt content =>
    let backupRes := create_backup copyOk (some content) []
    { result := default
      backups := backupRes.2
      sourceAfter := f
      consoleMsgs :=
        ["File corrupted, attempting recovery",
         "Corrupted content (first 200 chars)",
         "Restoring from defaults"]
      auditEvents := [] }

/-! ## Audit logging (SecurityManager._log_audit) -/

/-- Result of one `_log_audit` call: the breaker afterwards, the exception
raised to the caller (if any), and whether the fallback file-only log line
for an open breaker was written. -/
structure LogAuditResult where
  breaker : CircuitBreaker
  raised : Option SecError
  fallbackLogged : Bool
  deriving Repr

/-- `SecurityManager._log_audit`, with the outcomes of the three fallible
steps injected: `fileAppend` (the `self.logger.info` rotating-file append),
`dbWrite` (what `_write_audit_db` would do if invoked; routed through
`circuit_breaker.call`), and `anomalies` (`_detect_anomalies`, whose own
nested audit write can raise).  `except CircuitBreakerOpen` falls back to
file-only logging and swallows the failure; every other exception is
re-raised as AuditError. -/
def log_audit (cb : CircuitBreaker) (now : Int)
    (fileAppend : Except String Unit) (dbWrite : Except String Unit)
    (anomalies : Except String Unit) : LogAuditResult :=
  match fileAppend with
  | Except.error msg =>
    { breaker := cb, raised := some (SecError.auditError msg), fallbackLogged := false }
  | Except.ok _ =>
    let r := CircuitBreaker.call cb now dbWrite
    match r.outcome with
    | CBOutcome.breakerOpen =>
      { breaker := r.cb, raised := none, fallbackLogged := true }
    | CBOutcome.result (Except.error msg) =>
      { breaker := r.cb, raised := some (SecError.auditError msg), fallbackLogged := false }
    | CBOutcome.result (Except.ok _) =>
      match anomalies with
      | Except.error msg =>
        { breaker := r.cb, raised := some (SecError.auditError msg), fallbackLogged := false }
      | Except.ok _ =>
        { breaker := r.cb, raised := none, fallbackLogged := false }

/-! ## Anomaly detection (SecurityManager._detect_anomalies) -/

/-- Result of one `_detect_anomalies` call: the per-user pattern window
afterwards, whether the CRITICAL SECURITY_VIOLATION audit event was emitted,
and the exception propagated to the caller (if any). -/
structure AnomalyResult where
  patterns : List (String × Int)
  emitted : Bool
  raised : Option String
  deriving Repr, DecidableEq

/-- The window update of `_detect_anomalies`: `patterns.append((action, t))`
followed by `if len(patterns) > 100: patterns.pop(0)`. -/
def anomaly_window (now : Int) (patterns : List (String × Int)) (action : String) :
    List (String × Int) :=
  let patterns1 := patterns ++ [(action, now)]
  if 100 < patterns1.length then patterns1.drop 1 else patterns1

/-- The `recent` comprehension of `_detect_anomalies`: entries of the window
with `t > current_time - 10 and a == action`. -/
def anomaly_recent (now : Int) (window : List (String × Int)) (action : String) :
    List (String × Int) :=
  window.filter (fun p => decide (now - 10 < p.2) && (p.1 == action))

/-- `SecurityManager._detect_anomalies(user_id, action)` on the pattern list
of that user, with `auditEmit` the outcome of the nested `_log_audit` call
that reports the anomaly.  There is no try/except here: if the nested audit
write raises, the exception propagates. -/
def detect_anomalies (now : Int) (patterns : List (String × Int)) (action : String)
    (auditEmit : Except String Unit) : AnomalyResult :=
  let patterns2 := anomaly_window now patterns action
  let recent := anomaly_recent now patterns2 action
  if 20 < recent.length then
    match auditEmit with
    | Except.ok _ => { patterns := patterns2, emitted := true, raised := none }
    | Except.error msg => { patterns := patterns2, emitted := true, raised := some msg }
  else
    { patterns := patterns2, emitted := false, raised := none }

/-! ## Session registry (SecurityManager.validate_session) -/

/-- `SecurityManager.validate_session(session_id)` over the
`_active_sessions` dict (token -> creation time, in seconds), with
`timeout_minutes` from `config.session_timeout_minutes`.  Returns the
verdict and the registry afterwards. -/
def validate_session (timeout_minutes : Nat) (now : Int)
    (sessions : List (String × Int)) (session_id : String) :
    Bool × List (String × Int) :=
  match sessions.lookup session_id with
  | none => (false, sessions)
  | some created =>
    if (timeout_minutes : Int) * 60 < now - created then
      (false, sessions.eraseP (fun p => p.1 == session_id))
    else
      (true, sessions)

/-! ## IP validation and log_action (SecurityManager._validate_ip / log_action) -/

/-- Lower-case hex digit, the `[a-f0-9]` class of the IPv6 pattern. -/
def isHexLower (c : Char) : Bool := c.isDigit || ('a' ≤ c && c ≤ 'f')

/-- Split a character list on the dot separator. -/
def splitOnDot : List Char → List (List Char)
  | [] => [[]]
  | c :: rest =>
    if c = '.' then [] :: splitOnDot rest
    else
      match splitOnDot rest with
      | [] => [[c]]
      | g :: gs => (c :: g) :: gs

/-- Python `str.lower()` (ASCII letters, which is all the pattern needs). -/
def pyLower (s : String) : String := String.mk (s.toList.map Char.toLower)

/-- Full-string match of the IPv4 pattern `(\d{1,3}\.){3}\d{1,3}` used by
`_validate_ip`: exactly four dot-separated runs of one to three digits
(`re.match` with a fully anchored pattern; `\d` modelled as an ASCII
digit). -/
def ipv4_match (s : String) : Bool :=
  let parts := splitOnDot s.toList
  parts.length == 4 &&
    parts.all (fun p => decide (1 ≤ p.length) && decide (p.length ≤ 3) && p.all Char.isDigit)

/-- Full-string match of the simplified IPv6 pattern
`([a-f0-9:]+:+)+[a-f0-9]+`.  Its language is: every character is a
lower-case hex digit or a colon, the last character is a hex digit, and at
least two characters precede the maximal trailing hex run (so that run is
preceded by a colon that is itself not the first possible group). -/
def ipv6_match (s : String) : Bool :=
  let cs := s.toList
  let k := (cs.reverse.takeWhile isHexLower).length
  cs.all (fun c => isHexLower c || c == ':') && decide (1 ≤ k) &&
    decide (k + 2 ≤ cs.length)

/-- `SecurityManager._validate_ip(ip)`: a syntactically valid IP is returned
unchanged, anything else becomes the placeholder. -/
def validate_ip (ip : String) : String :=
  if ipv4_match ip || ipv6_match (pyLower ip) then ip else "0.0.0.0"

/-- The audit event assembled by log_action/_log_audit, with the exact
checksum input `f"{user_id}|{action.value}|{details}|{ip_address}"`. -/
structure AuditRecord where
  user_id : Int
  action : String
  details : String
  session_id : String
  origin : String
  checksum_input : String
  deriving Repr, DecidableEq

/-- `SecurityManager.log_action`, with the outcomes of the steps that do not
involve the IP injected: `rateCheck` (`_check_rate_limit("audit")`),
`detailsV` and `sessionV` (the two `validate_input` calls, returning the
sanitized strings).  The IP path is concrete: `_validate_ip` is total and
never raises, so the event is always built, with the origin coerced. -/
def log_action (rateCheck : Except SecError Unit)
    (detailsV : Except SecError String) (sessionV : Except SecError String)
    (user_id : Int) (action : String) (ip_address : String) :
    Except SecError AuditRecord :=
  match rateCheck with
  | Except.error e => Except.error e
  | Except.ok _ =>
    match detailsV with
    | Except.error e => Except.error e
    | Except.ok details =>
      match sessionV with
      | Except.error e => Except.error e
      | Except.ok session_id =>
        let ip := validate_ip ip_address
        Except.ok
          { user_id := user_id
            action := action
            details := details
            session_id := session_id
            origin := ip
            checksum_input :=
              toString user_id ++ "|" ++ action ++ "|" ++ details ++ "|" ++ ip }

/-! ## Support definitions for concrete instantiations -/

/-- A concrete payload used to instantiate the library interface in witnesses. -/
def witnessPayload : Payload :=
  { version := "v2"
    timestamp := "2026-01-01T00:00:00+00:00"
    data := "phi data"
    metadata := [("k", "v")] }

/-- A concrete library stack whose wire types are `Payload` itself; its
encoders are identities and its token is a fixed non-blank string, so the
round-trip contracts hold definitionally at `witnessPayload`. -/
def witnessStack : CryptoStack Payload Payload :=
  { jsonDumps := fun p => p
    jsonLoads := fun p => some p
    fernetEncrypt := fun p => p
    fernetDecrypt := fun p => some p
    b64encode := fun _ => "TOKEN"
    b64decode := fun _ => some witnessPayload }

/-- A configuration with encryption version v2. -/
def witnessCfgV2 : SecurityCfg :=
  { encryption_version := "v2"
    max_data_size := 10485760
    max_encryptions_per_minute := 1000
    session_timeout_minutes := 30 }

/-- The same configuration reconfigured for encryption version v1. -/
def witnessCfgV1 : SecurityCfg :=
  { witnessCfgV2 with encryption_version := "v1" }

/-- Breaker trace, step 1: first failure on a fresh breaker with threshold 2. -/
def cbTrace1 : CBCall String Unit :=
  CircuitBreaker.call (CircuitBreaker.init 2 60) 0 (Except.error "f1")

/-- Breaker trace, step 2: a success before the threshold is reached. -/
def cbTrace2 : CBCall String Unit :=
  CircuitBreaker.call cbTrace1.cb 1 (Except.ok ())

/-- Breaker trace, step 3: a second, non-consecutive failure. -/
def cbTrace3 : CBCall String Unit :=
  CircuitBreaker.call cbTrace2.cb 2 (Except.error "f2")

/-! # Helper lemmas -/

theorem pruneWindow_eq_self (ws : Int) (w : List Int) (h : ∀ x ∈ w, ws ≤ x) :
    pruneWindow ws w = w := by
  cases w with
  | nil => rfl
  | cons t rest =>
    unfold pruneWindow
    rw [if_neg]
    simpa using h t (by simp)

theorem pruneWindow_all_old (ws : Int) (w : List Int) (h : ∀ x ∈ w, x < ws) :
    pruneWindow ws w = [] := by
  induction w with
  | nil => rfl
  | cons t rest ih =>
    unfold pruneWindow
    rw [if_pos (h t (by simp))]
    exact ih fun x hx => h x (by simp [hx])

theorem pruneWindow_length_le (ws : Int) (w : List Int) :
    (pruneWindow ws w).length ≤ w.length := by
  induction w with
  | nil => simp [pruneWindow]
  | cons t rest ih =>
    unfold pruneWindow
    split
    · exact le_trans ih (by simp)
    · simp

theorem dequeAppend_of_lt (maxlen : Nat) (q : List Int) (x : Int)
    (h : q.length < maxlen) : dequeAppend maxlen q x = q ++ [x] := by
  unfold dequeAppend
  rw [if_neg (by omega)]

theorem dequeAppend_length_le (q : List Int) (x : Int) (h : q.length ≤ 1000) :
    (dequeAppend 1000 q x).length ≤ 1000 := by
  unfold dequeAppend
  split <;> simp <;> omega

theorem iterRateLimit_in_window (limit : Nat) (hcap : limit ≤ 1000) (T : Int)
    (ts : List Int) :
    ∀ (w : List Int), (∀ t ∈ w, T ≤ t ∧ t < T + 60) →
      (∀ t ∈ ts, T ≤ t ∧ t < T + 60) →
      w.length + ts.length ≤ limit →
      iterRateLimit limit w ts = Except.ok (w ++ ts) := by
  induction ts with
  | nil =>
    intro w _ _ _
    simp [iterRateLimit]
  | cons t ts ih =>
    intro w hw hts hlen
    have hx : ∀ x ∈ w, t - 60 ≤ x := by
      intro x hxw
      have h1 := (hw x hxw).1
      have h2 := (hts t (by simp)).2
      omega
    have hwlt : w.length < limit := by
      simp at hlen; omega
    have hcheck : check_rate_limit_encryption limit t w = Except.ok (w ++ [t]) := by
      simp only [check_rate_limit_encryption]
      rw [pruneWindow_eq_self _ _ hx, if_neg (by omega),
        dequeAppend_of_lt _ _ _ (by unfold ENC_WINDOW_MAXLEN; omega)]
    rw [iterRateLimit, hcheck]
    show iterRateLimit limit (w ++ [t]) ts = _
    rw [ih (w ++ [t])
        (by
          intro y hy
          rcases List.mem_append.1 hy with h | h
          · exact hw y h
          · simp at h; subst h; exact hts y (by simp))
        (fun y hy => hts y (by simp [hy]))
        (by simp at hlen ⊢; omega)]
    simp

theorem check_over_cap (limit : Nat) (hlim : 1000 < limit) (now : Int)
    (w : List Int) (hw : w.length ≤ 1000) :
    ∃ w', check_rate_limit_encryption limit now w = Except.ok w' ∧
      w'.length ≤ 1000 := by
  have hp := pruneWindow_length_le (now - 60) w
  refine ⟨dequeAppend 1000 (pruneWindow (now - 60) w) now, ?_, ?_⟩
  · unfold check_rate_limit_encryption
    rw [if_neg (by omega)]
    rfl
  · exact dequeAppend_length_le _ _ (by omega)

theorem iter_over_cap (limit : Nat) (hlim : 1000 < limit) :
    ∀ (ts w : List Int), w.length ≤ 1000 →
      ∃ w', iterRateLimit limit w ts = Except.ok w' ∧ w'.length ≤ 1000
  | [], w, hw => ⟨w, by simp [iterRateLimit], hw⟩
  | t :: ts, w, hw => by
    obtain ⟨w1, hc, hw1⟩ := check_over_cap limit hlim t w hw
    obtain ⟨w', hiter, hw'⟩ := iter_over_cap limit hlim ts w1 hw1
    refine ⟨w', ?_, hw'⟩
    rw [iterRateLimit, hc]
    show iterRateLimit limit w1 ts = _
    exact hiter

theorem cb_reach_threshold_le (threshold : Nat) (timeout : Int)
    (cb : CircuitBreaker) (h : CBReach threshold timeout cb) :
    cb.state ≠ CBState.CLOSED → cb.failure_threshold ≤ cb.failures := by
  induction h with
  | start => intro hst; simp [CircuitBreaker.init] at hst
  | step cb now fres hreach ih =>
    by_cases h1 : cb.state = CBState.OPEN
    · by_cases h2 : cb.recovery_timeout < now - cb.last_failure_time.getD 0
      · cases fres with
        | ok a => simp [CircuitBreaker.call, h1, h2]
        | error e =>
          simp [CircuitBreaker.call, h1, h2]
          intro _
          have hx := ih (by simp [h1])
          omega
      · cases fres with
        | ok a => simpa [CircuitBreaker.call, h1, h2] using ih
        | error e => simpa [CircuitBreaker.call, h1, h2] using ih
    · cases fres with
      | ok a =>
        by_cases h3 : cb.state = CBState.HALF_OPEN
        · simp [CircuitBreaker.call, h1, h3]
        · simpa [CircuitBreaker.call, h1, h3] using ih
      | error e =>
        by_cases h4 : cb.failure_threshold ≤ cb.failures + 1
        · simp [CircuitBreaker.call, h1, h4]
        · simp [CircuitBreaker.call, h1, h4]
          by_contra hc
          exact h4 (le_trans (ih hc) (Nat.le_succ _))

/-! # Claim theorems -/

/-- C3 counterexample: with failure_threshold = 2, the sequence
failure, success, failure (non-consecutive failures) leaves the failure
count at 1 after the success — the success does NOT reset it — and the
second, non-consecutive failure trips the breaker to OPEN, contrary to the
claim that a success before the threshold resets the count so that
non-consecutive failures do not trip it. -/
theorem circuitBreaker_success_no_reset_cex :
    cbTrace1.cb.failures = 1 ∧ cbTrace2.cb.failures = 1 ∧
      cbTrace2.cb.state = CBState.CLOSED ∧ cbTrace3.cb.state = CBState.OPEN := by
  decide

/-- C3 (amended): the circuit breaker lifecycle as implemented.  From CLOSED,
a failure increments the count, and the breaker opens exactly when the count
reaches failure_threshold; a success while CLOSED leaves the breaker —
including its failure count — unchanged (the count is reset only by a
successful HALF_OPEN trial), so failures need not be consecutive to trip the
breaker.  While OPEN and within recovery_timeout of the last failure, call
raises CircuitBreakerOpen without invoking the protected function and without
changing the breaker.  Once recovery_timeout has strictly elapsed, one trial
call is attempted; its success sets the state to CLOSED with the count reset
to 0, and its failure records the failure time and returns the state to OPEN
(its count being at least the threshold, which holds for every breaker
reachable from init, as the last conjunct states). -/
theorem circuitBreaker_lifecycle_amended {ε α : Type} :
    (∀ (cb : CircuitBreaker) (now : Int) (e : ε),
      cb.state = CBState.CLOSED → cb.failures + 1 < cb.failure_threshold →
        (CircuitBreaker.call cb now (Except.error e) : CBCall ε α) =
          ⟨{ cb with failures := cb.failures + 1, last_failure_time := some now },
            CBOutcome.result (Except.error e), true⟩) ∧
    (∀ (cb : CircuitBreaker) (now : Int) (e : ε),
      cb.state = CBState.CLOSED → cb.failure_threshold ≤ cb.failures + 1 →
        ((CircuitBreaker.call cb now (Except.error e) : CBCall ε α)).cb.state
            = CBState.OPEN ∧
          ((CircuitBreaker.call cb now (Except.error e) : CBCall ε α)).invoked
            = true) ∧
    (∀ (cb : CircuitBreaker) (now : Int) (a : α),
      cb.state = CBState.CLOSED →
        (CircuitBreaker.call cb now (Except.ok a) : CBCall ε α) =
          ⟨cb, CBOutcome.result (Except.ok a), true⟩) ∧
    (∀ (cb : CircuitBreaker) (now t : Int) (fres : Except ε α),
      cb.state = CBState.OPEN → cb.last_failure_time = some t →
      now - t ≤ cb.recovery_timeout →
        CircuitBreaker.call cb now fres = ⟨cb, CBOutcome.breakerOpen, false⟩) ∧
    (∀ (cb : CircuitBreaker) (now t : Int) (a : α),
      cb.state = CBState.OPEN → cb.last_failure_time = some t →
      cb.recovery_timeout < now - t →
        (CircuitBreaker.call cb now (Except.ok a) : CBCall ε α) =
          ⟨{ cb with state := CBState.CLOSED, failures := 0 },
            CBOutcome.result (Except.ok a), true⟩) ∧
    (∀ (cb : CircuitBreaker) (now t : Int) (e : ε),
      cb.state = CBState.OPEN → cb.last_failure_time = some t →
      cb.recovery_timeout < now - t → cb.failure_threshold ≤ cb.failures →
        (CircuitBreaker.call cb now (Except.error e) : CBCall ε α) =
          ⟨{ cb with
              failures := cb.failures + 1
              last_failure_time := some now
              state := CBState.OPEN },
            CBOutcome.result (Except.error e), true⟩) ∧
    (∀ (threshold : Nat) (timeout : Int) (cb : CircuitBreaker),
      CBReach threshold timeout cb → cb.state ≠ CBState.CLOSED →
        cb.failure_threshold ≤ cb.failures) := by
  refine ⟨?_, ?_, ?_, ?_, ?_, ?_, ?_⟩
  · intro cb now e h1 h2
    simp [CircuitBreaker.call, h1,
      (by omega : ¬ cb.failure_threshold ≤ cb.failures + 1)]
    omega
  · intro cb now e h1 h2
    simp [CircuitBreaker.call, h1, h2]
  · intro cb now a h1
    simp [CircuitBreaker.call, h1]
  · intro cb now t fres h1 h2 h3
    simp [CircuitBreaker.call, h1, h2]
    rw [if_neg (by omega : ¬ cb.recovery_timeout < now - t)]
  · intro cb now t a h1 h2 h3
    simp [CircuitBreaker.call, h1, h2, h3]
  · intro cb now t e h1 h2 h3 h4
    simp [CircuitBreaker.call, h1, h2, h3,
      (by omega : cb.failure_threshold ≤ cb.failures + 1)]
  · exact fun threshold timeout cb h => cb_reach_threshold_le threshold timeout cb h

/-- C3 witness: the amended lifecycle evaluated on concrete breakers — a
first failure on a fresh breaker with threshold 3; a fast refusal while OPEN
inside the recovery window; a successful trial closing the breaker after the
window; a failing trial re-opening it; and the reachability invariant on a
breaker opened by one failure at threshold 1. -/
theorem circuitBreaker_lifecycle_witness :
    (CircuitBreaker.call (CircuitBreaker.init 3 60) 5 (Except.error "e")
        : CBCall String Unit) =
      ⟨⟨3, 60, 1, some 5, CBState.CLOSED⟩, CBOutcome.result (Except.error "e"), true⟩ ∧
    (CircuitBreaker.call ⟨3, 60, 3, some 0, CBState.OPEN⟩ 30 (Except.ok ())
        : CBCall String Unit) =
      ⟨⟨3, 60, 3, some 0, CBState.OPEN⟩, CBOutcome.breakerOpen, false⟩ ∧
    (CircuitBreaker.call ⟨3, 60, 3, some 0, CBState.OPEN⟩ 100 (Except.ok ())
        : CBCall String Unit) =
      ⟨⟨3, 60, 0, some 0, CBState.CLOSED⟩, CBOutcome.result (Except.ok ()), true⟩ ∧
    (CircuitBreaker.call ⟨3, 60, 3, some 0, CBState.OPEN⟩ 100 (Except.error "e")
        : CBCall String Unit) =
      ⟨⟨3, 60, 4, some 100, CBState.OPEN⟩, CBOutcome.result (Except.error "e"), true⟩ ∧
    ((CircuitBreaker.call (CircuitBreaker.init 1 60) 0 (Except.error "x")
        : CBCall String Unit).cb.failure_threshold ≤
      (CircuitBreaker.call (CircuitBreaker.init 1 60) 0 (Except.error "x")
        : CBCall String Unit).cb.failures) :=
  ⟨(circuitBreaker_lifecycle_amended (ε := String) (α := Unit)).1
     (CircuitBreaker.init 3 60) 5 "e" rfl (by decide),
   (circuitBreaker_lifecycle_amended (ε := String) (α := Unit)).2.2.2.1
     ⟨3, 60, 3, some 0, CBState.OPEN⟩ 30 0 (Except.ok ()) rfl rfl (by decide),
   (circuitBreaker_lifecycle_amended (ε := String) (α := Unit)).2.2.2.2.1
     ⟨3, 60, 3, some 0, CBState.OPEN⟩ 100 0 () rfl rfl (by decide),
   (circuitBreaker_lifecycle_amended (ε := String) (α := Unit)).2.2.2.2.2.1
     ⟨3, 60, 3, some 0, CBState.OPEN⟩ 100 0 "e" rfl rfl (by decide) (by decide),
   (circuitBreaker_lifecycle_amended (ε := String) (α := Unit)).2.2.2.2.2.2 1 60 _
     (CBReach.step _ 0 (Except.error "x") CBReach.start) (by decide)⟩

/-- C4 counterexample: the claim fails when the configured per-minute ceiling
exceeds the hard deque capacity of 1000.  With limit = 1001, the claim says
the first 1001 calls in one window succeed and the 1002nd raises
RateLimitExceeded, so iterating the check over 1002 calls at time 0 must end
in an error; instead every call succeeds, because `deque(maxlen=1000)`
silently evicts the oldest timestamp and the window length never reaches the
limit. -/
theorem rateLimit_over_cap_cex :
    exceptIsOk (iterRateLimit 1001 [] (List.replicate 1002 0)) = true := by
  obtain ⟨w', hw, -⟩ :=
    iter_over_cap 1001 (by omega) (List.replicate 1002 0) [] (by simp)
  rw [hw]
  rfl

/-- C4 (amended): rate-limiting exactness holds whenever the configured
ceiling does not exceed the deque capacity 1000.  Starting from an empty
window, each of the first `limit` calls within one 60-second window succeeds,
appending its timestamp; a further call within the same window raises
RateLimitExceeded; and once every recorded timestamp is more than 60 seconds
old, a new call succeeds again. -/
theorem rateLimit_exactness_amended (limit : Nat) (hlim1 : 1 ≤ limit)
    (hcap : limit ≤ 1000) (T : Int) (ts : List Int) (hlen : ts.length = limit)
    (hts : ∀ t ∈ ts, T ≤ t ∧ t < T + 60)
    (textra : Int) (hextra : T ≤ textra ∧ textra < T + 60)
    (tlate : Int) (hlate : ∀ t ∈ ts, t < tlate - 60) :
    iterRateLimit limit [] ts = Except.ok ts ∧
    check_rate_limit_encryption limit textra ts =
      Except.error (SecError.rateLimitExceeded "Rate limit exceeded: encryption") ∧
    check_rate_limit_encryption limit tlate ts = Except.ok [tlate] := by
  refine ⟨?_, ?_, ?_⟩
  · simpa using iterRateLimit_in_window limit hcap T ts [] (by simp) hts (by simp [hlen])
  · have hx : ∀ x ∈ ts, textra - 60 ≤ x := by
      intro x hxw
      have h1 := (hts x hxw).1
      omega
    simp only [check_rate_limit_encryption]
    rw [pruneWindow_eq_self _ _ hx, if_pos (by omega)]
  · simp only [check_rate_limit_encryption]
    rw [pruneWindow_all_old _ _ hlate, if_neg (by simpa using by omega)]
    rfl

/-- C4 witness: the amended exactness at limit 2, calls at times 0 and 5 in
the window starting at 0, an over-limit call at time 10, and a late call at
time 100 after both timestamps have aged out. -/
theorem rateLimit_exactness_witness :
    iterRateLimit 2 [] [0, 5] = Except.ok [0, 5] ∧
    check_rate_limit_encryption 2 10 [0, 5] =
      Except.error (SecError.rateLimitExceeded "Rate limit exceeded: encryption") ∧
    check_rate_limit_encryption 2 100 [0, 5] = Except.ok [100] :=
  rateLimit_exactness_amended 2 (by decide) (by decide) 0 [0, 5] rfl
    (by decide) 10 (by decide) 100 (by decide)

/-- C1: encryption round-trip.  For every plaintext that is non-empty after
trimming and within max_data_size, and every metadata dict, provided the
encryption rate-limit check admits the call, decrypt_data applied to the
token produced by encrypt_data returns exactly the plaintext and the
metadata (the metadata defaulting to the empty dict when omitted), under the
same configuration and cipher stack.  The hypotheses `hb64`, `hfernet`,
`hjson` and `htrim` are the documented round-trip contracts of base64,
Fernet and json at this payload; `hp`/`htok` name the envelope and token. -/
theorem encrypt_decrypt_roundtrip {J C : Type} (cs : CryptoStack J C)
    (cfg : SecurityCfg) (now : Int) (window window1 : List Int)
    (timestamp data : String) (metadata : Option Metadata)
    (p : Payload) (tok : String)
    (hp : p = { version := cfg.encryption_version, timestamp := timestamp,
                data := data, metadata := metadata.getD [] })
    (htok : tok = cs.b64encode (cs.fernetEncrypt (cs.jsonDumps p)))
    (hrate : check_rate_limit_encryption cfg.max_encryptions_per_minute now window
      = Except.ok window1)
    (hne : pyStrip data ≠ "")
    (hsize : data.length ≤ cfg.max_data_size)
    (hb64 : cs.b64decode tok = some (cs.fernetEncrypt (cs.jsonDumps p)))
    (hfernet : cs.fernetDecrypt (cs.fernetEncrypt (cs.jsonDumps p))
      = some (cs.jsonDumps p))
    (hjson : cs.jsonLoads (cs.jsonDumps p) = some p)
    (htrim : pyStrip tok ≠ "") :
    encrypt_data cs cfg now window timestamp data metadata
      = Except.ok (tok, window1) ∧
    decrypt_data cs cfg tok = Except.ok (data, metadata.getD []) := by
  subst hp
  subst htok
  constructor
  · simp [encrypt_data, hrate, hne, not_lt.mpr hsize]
  · simp [decrypt_data, htrim, hb64, hfernet, hjson]

/-- C1 witness: the round-trip evaluated on the concrete stack
`witnessStack` at the payload `witnessPayload`, under configuration v2. -/
theorem encrypt_decrypt_roundtrip_witness :
    encrypt_data witnessStack witnessCfgV2 100 [] "2026-01-01T00:00:00+00:00"
        "phi data" (some [("k", "v")]) = Except.ok ("TOKEN", [100]) ∧
    decrypt_data witnessStack witnessCfgV2 "TOKEN"
      = Except.ok ("phi data", [("k", "v")]) :=
  encrypt_decrypt_roundtrip witnessStack witnessCfgV2 100 [] [100]
    "2026-01-01T00:00:00+00:00" "phi data" (some [("k", "v")])
    witnessPayload "TOKEN" (by rfl) (by rfl) (by rfl) (by decide) (by decide)
    (by rfl) (by rfl) (by rfl) (by decide)

/-- C2: version pinning.  A token produced by encrypt_data under a
configuration with encryption_version vN is refused by decrypt_data under a
configuration whose encryption_version differs: it returns the
EncryptionError produced by the version check (re-wrapped by the generic
exception handler), never the plaintext.  Library round-trip contracts at
the payload are hypotheses as in the round-trip theorem. -/
theorem version_pinning_rejects {J C : Type} (cs : CryptoStack J C)
    (cfgN cfgM : SecurityCfg)
    (hver : cfgM.encryption_version ≠ cfgN.encryption_version)
    (now : Int) (window window1 : List Int) (timestamp data : String)
    (metadata : Option Metadata) (p : Payload) (tok : String)
    (hp : p = { version := cfgN.encryption_version, timestamp := timestamp,
                data := data, metadata := metadata.getD [] })
    (htok : tok = cs.b64encode (cs.fernetEncrypt (cs.jsonDumps p)))
    (hrate : check_rate_limit_encryption cfgN.max_encryptions_per_minute now window
      = Except.ok window1)
    (hne : pyStrip data ≠ "")
    (hsize : data.length ≤ cfgN.max_data_size)
    (hb64 : cs.b64decode tok = some (cs.fernetEncrypt (cs.jsonDumps p)))
    (hfernet : cs.fernetDecrypt (cs.fernetEncrypt (cs.jsonDumps p))
      = some (cs.jsonDumps p))
    (hjson : cs.jsonLoads (cs.jsonDumps p) = some p)
    (htrim : pyStrip tok ≠ "") :
    encrypt_data cs cfgN now window timestamp data metadata
      = Except.ok (tok, window1) ∧
    decrypt_data cs cfgM tok =
      Except.error (SecError.encryptionError "Decryption failed: Version mismatch") := by
  subst hp
  subst htok
  constructor
  · simp [encrypt_data, hrate, hne, not_lt.mpr hsize]
  · simp [decrypt_data, htrim, hb64, hfernet, hjson, Ne.symm hver]

/-- C2 witness: a token sealed under v2 is refused when decrypted under a
configuration pinned to v1. -/
theorem version_pinning_witness :
    encrypt_data witnessStack witnessCfgV2 100 [] "2026-01-01T00:00:00+00:00"
        "phi data" (some [("k", "v")]) = Except.ok ("TOKEN", [100]) ∧
    decrypt_data witnessStack witnessCfgV1 "TOKEN" =
      Except.error (SecError.encryptionError "Decryption failed: Version mismatch") :=
  version_pinning_rejects witnessStack witnessCfgV2 witnessCfgV1 (by decide)
    100 [] [100] "2026-01-01T00:00:00+00:00" "phi data" (some [("k", "v")])
    witnessPayload "TOKEN" (by rfl) (by rfl) (by rfl) (by decide) (by decide)
    (by rfl) (by rfl) (by rfl) (by decide)

/-- C5 (code bug evaluation): when `json.dump` into the temp file fails —
e.g. the data contains a Python set, which is not JSON-serializable — the
write returns False and the destination keeps its prior contents, but the
temp file is NOT removed: `temp_path` is assigned only after `json.dump`
returns, so the cleanup handler sees `temp_path = None` and skips the
unlink, leaving the partially written temp file on disk, contrary to the
claim (and to the intent of the cleanup block). -/
theorem atomic_write_dump_failure_leaves_temp :
    atomic_json_write ⟨true, true, false, true, true⟩ "serialized" "junk"
        ⟨some "old", none⟩ =
      (false, { target := some "old", temp := some "junk" }) := rfl

/-- C6 counterexample: on a corrupt file the read path emits no audit event
at all — the recovery is only printed to the console — contradicting the
claim that a recovery audit event is logged; the default is still
returned. -/
theorem atomic_read_no_audit_event_cex :
    (atomic_json_read true (ReadFile.corrupt "not json") (42 : Nat)).auditEvents
        = [] ∧
      (atomic_json_read true (ReadFile.corrupt "not json") (42 : Nat)).result = 42 :=
  ⟨rfl, rfl⟩

/-- C6 (amended): corruption-safe read.  A missing file returns the default
with nothing else touched.  A file that fails JSON deserialization is first
copied into a timestamped backup (when the copy itself succeeds; a failed
copy is swallowed), recovery warnings are printed to the console — no audit
event is emitted — the default is returned, and the corrupt source file is
left in place for forensic review. -/
theorem atomic_read_recovery_amended {V : Type} (copyOk : Bool) (default : V)
    (content : String) :
    ((atomic_json_read copyOk ReadFile.absent default).result = default ∧
      (atomic_json_read copyOk ReadFile.absent default).sourceAfter
        = ReadFile.absent ∧
      (atomic_json_read copyOk ReadFile.absent default).backups = []) ∧
    ((atomic_json_read copyOk (ReadFile.corrupt content) default).result
        = default ∧
      (atomic_json_read copyOk (ReadFile.corrupt content) default).sourceAfter
        = ReadFile.corrupt content ∧
      (copyOk = true →
        (atomic_json_read copyOk (ReadFile.corrupt content) default).backups
          = [content]) ∧
      (atomic_json_read copyOk (ReadFile.corrupt content) default).consoleMsgs
        ≠ [] ∧
      (atomic_json_read copyOk (ReadFile.corrupt content) default).auditEvents
        = []) := by
  refine ⟨⟨rfl, rfl, rfl⟩, rfl, rfl, ?_, ?_, rfl⟩
  · intro h
    simp [atomic_json_read, create_backup, h]
  · simp [atomic_json_read]

/-- C6 witness: the amended recovery behaviour evaluated on a corrupt file
with contents "bad" and default 7, with the backup copy succeeding. -/
theorem atomic_read_recovery_witness :
    (atomic_json_read true (ReadFile.corrupt "bad") (7 : Nat)).result = 7 ∧
    (atomic_json_read true (ReadFile.corrupt "bad") (7 : Nat)).backups = ["bad"] ∧
    (atomic_json_read true (ReadFile.corrupt "bad") (7 : Nat)).sourceAfter
      = ReadFile.corrupt "bad" :=
  ⟨(atomic_read_recovery_amended true 7 "bad").2.1,
   (atomic_read_recovery_amended true 7 "bad").2.2.2.1 rfl,
   (atomic_read_recovery_amended true 7 "bad").2.2.1⟩

/-- C7 counterexample: with the breaker CLOSED (fresh, threshold 5) and the
rotating-file append succeeding, a database insert that throws is re-raised
by the generic handler as AuditError — even though only the backing-store
path failed — contradicting the claim that AuditError requires both paths
to fail. -/
theorem auditError_db_failure_cex :
    (log_audit (CircuitBreaker.init 5 60) 0 (Except.ok ()) (Except.error "db down")
        (Except.ok ())).raised = some (SecError.auditError "db down") ∧
      (log_audit (CircuitBreaker.init 5 60) 0 (Except.ok ()) (Except.error "db down")
        (Except.ok ())).fallbackLogged = false :=
  ⟨rfl, rfl⟩

/-- C7 (amended): _log_audit raises AuditError exactly when some step raises
an exception other than CircuitBreakerOpen: a failed file append, a database
write that throws while the breaker admits the call, or a failure of the
anomaly-detection step.  A CircuitBreakerOpen refusal alone is swallowed:
the call falls back to file-only logging and raises nothing — so a
backing-store outage with the breaker open never raises, but a direct
database exception does, even when the file append succeeded. -/
theorem auditError_policy_amended (cb : CircuitBreaker) (now : Int)
    (fa db an : Except String Unit) :
    ((∀ m, fa = Except.error m →
      (log_audit cb now fa db an).raised = some (SecError.auditError m)) ∧
    (fa = Except.ok () →
      (CircuitBreaker.call cb now db : CBCall String Unit).outcome
          = CBOutcome.breakerOpen →
      (log_audit cb now fa db an).raised = none ∧
        (log_audit cb now fa db an).fallbackLogged = true) ∧
    (fa = Except.ok () → ∀ m,
      (CircuitBreaker.call cb now db : CBCall String Unit).outcome
          = CBOutcome.result (Except.error m) →
      (log_audit cb now fa db an).raised = some (SecError.auditError m)) ∧
    (fa = Except.ok () →
      (CircuitBreaker.call cb now db : CBCall String Unit).outcome
          = CBOutcome.result (Except.ok ()) →
      ∀ m, an = Except.error m →
        (log_audit cb now fa db an).raised = some (SecError.auditError m)) ∧
    (fa = Except.ok () →
      (CircuitBreaker.call cb now db : CBCall String Unit).outcome
          = CBOutcome.result (Except.ok ()) →
      an = Except.ok () → (log_audit cb now fa db an).raised = none)) := by
  refine ⟨?_, ?_, ?_, ?_, ?_⟩
  · intro m hfa
    subst hfa
    simp [log_audit]
  · intro hfa hout
    subst hfa
    simp [log_audit, hout]
  · intro hfa m hout
    subst hfa
    simp [log_audit, hout]
  · intro hfa hout m han
    subst hfa
    subst han
    simp [log_audit, hout]
  · intro hfa hout han
    subst hfa
    subst han
    simp [log_audit, hout]

/-- C7 witness: the amended policy evaluated concretely — a breaker already
OPEN within its recovery window swallows the DB failure with a fallback log,
and a failed file append raises AuditError. -/
theorem auditError_policy_witness :
    (log_audit ⟨5, 60, 5, some 0, CBState.OPEN⟩ 30 (Except.ok ())
        (Except.error "db down") (Except.ok ())).raised = none ∧
    (log_audit ⟨5, 60, 5, some 0, CBState.OPEN⟩ 30 (Except.ok ())
        (Except.error "db down") (Except.ok ())).fallbackLogged = true ∧
    (log_audit (CircuitBreaker.init 5 60) 0 (Except.error "disk full")
        (Except.ok ()) (Except.ok ())).raised
      = some (SecError.auditError "disk full") :=
  ⟨((auditError_policy_amended ⟨5, 60, 5, some 0, CBState.OPEN⟩ 30 (Except.ok ())
      (Except.error "db down") (Except.ok ())).2.1 rfl rfl).1,
   ((auditError_policy_amended ⟨5, 60, 5, some 0, CBState.OPEN⟩ 30 (Except.ok ())
      (Except.error "db down") (Except.ok ())).2.1 rfl rfl).2,
   (auditError_policy_amended (CircuitBreaker.init 5 60) 0 (Except.error "disk full")
      (Except.ok ()) (Except.ok ())).1 "disk full" rfl⟩

theorem detect_anomalies_patterns (now : Int) (patterns : List (String × Int))
    (action : String) (auditEmit : Except String Unit) :
    (detect_anomalies now patterns action auditEmit).patterns
      = anomaly_window now patterns action := by
  cases auditEmit <;> (simp only [detect_anomalies]; split <;> rfl)

theorem detect_anomalies_emitted (now : Int) (patterns : List (String × Int))
    (action : String) (auditEmit : Except String Unit) :
    (detect_anomalies now patterns action auditEmit).emitted
      = decide (20 < (anomaly_recent now (anomaly_window now patterns action)
          action).length) := by
  cases auditEmit <;> (simp only [detect_anomalies]; split <;> simp_all)

theorem anomaly_window_length_le (now : Int) (patterns : List (String × Int))
    (action : String) (hlen : patterns.length ≤ 100) :
    (anomaly_window now patterns action).length ≤ 100 := by
  simp only [anomaly_window]
  split <;> simp_all

/-- C8 counterexample: when the anomaly threshold is crossed (21 identical
actions within 10 seconds) and the emitted CRITICAL audit write itself
raises, _detect_anomalies propagates the exception to its caller — there is
no try/except in it — contradicting the claim that the observe step never
raises under any outcome of the emitted audit write. -/
theorem anomaly_observe_raises_cex :
    (detect_anomalies 6 (List.replicate 20 ("X", 5)) "X"
        (Except.error "Audit logging failed")).raised
      = some "Audit logging failed" := by decide

/-- C8 (amended): the anomaly detector is advisory up to its audit emission.
The per-subject window never exceeds 100 entries; the CRITICAL audit event
is emitted exactly when strictly more than 20 entries of the observed action
lie within the last 10 seconds of the post-call window; no exception is
raised when no anomaly fires or when the emitted audit write succeeds; but
when the anomaly fires and the emitted audit write raises, that exception
propagates to the caller. -/
theorem anomaly_observe_amended (now : Int) (patterns : List (String × Int))
    (action : String) (auditEmit : Except String Unit)
    (hlen : patterns.length ≤ 100) :
    (detect_anomalies now patterns action auditEmit).patterns.length ≤ 100 ∧
    ((detect_anomalies now patterns action auditEmit).emitted = true ↔
      20 < ((detect_anomalies now patterns action auditEmit).patterns.filter
        (fun p => decide (now - 10 < p.2) && (p.1 == action))).length) ∧
    (auditEmit = Except.ok () →
      (detect_anomalies now patterns action auditEmit).raised = none) ∧
    ((detect_anomalies now patterns action auditEmit).emitted = false →
      (detect_anomalies now patterns action auditEmit).raised = none) ∧
    (∀ m, auditEmit = Except.error m →
      (detect_anomalies now patterns action auditEmit).emitted = true →
      (detect_anomalies now patterns action auditEmit).raised = some m) := by
  refine ⟨?_, ?_, ?_, ?_, ?_⟩
  · rw [detect_anomalies_patterns]
    exact anomaly_window_length_le now patterns action hlen
  · rw [detect_anomalies_emitted, detect_anomalies_patterns]
    unfold anomaly_recent
    simp
  · intro h
    subst h
    simp only [detect_anomalies]
    split <;> rfl
  · intro h
    rw [detect_anomalies_emitted] at h
    simp only [decide_eq_false_iff_not] at h
    simp only [detect_anomalies]
    rw [if_neg h]
  · intro m hm hemit
    subst hm
    rw [detect_anomalies_emitted] at hemit
    simp only [decide_eq_true_eq] at hemit
    simp only [detect_anomalies]
    rw [if_pos hemit]

/-- C8 witness: the amended behaviour evaluated concretely — 21 rapid
identical actions with a succeeding audit write emit the event and raise
nothing; the bound and trigger also evaluate as stated. -/
theorem anomaly_observe_witness :
    (detect_anomalies 6 (List.replicate 20 ("X", 5)) "X"
        (Except.ok ())).patterns.length ≤ 100 ∧
    (detect_anomalies 6 (List.replicate 20 ("X", 5)) "X"
        (Except.ok ())).emitted = true ∧
    (detect_anomalies 6 (List.replicate 20 ("X", 5)) "X"
        (Except.ok ())).raised = none :=
  ⟨(anomaly_observe_amended 6 (List.replicate 20 ("X", 5)) "X" (Except.ok ())
      (by decide)).1,
   (anomaly_observe_amended 6 (List.replicate 20 ("X", 5)) "X" (Except.ok ())
      (by decide)).2.1.mpr (by decide),
   (anomaly_observe_amended 6 (List.replicate 20 ("X", 5)) "X" (Except.ok ())
      (by decide)).2.2.1 rfl⟩

theorem lookup_eq_none_of_not_mem (l : List (String × Int)) (k : String)
    (h : k ∉ l.map Prod.fst) : l.lookup k = none := by
  induction l with
  | nil => rfl
  | cons a t ih =>
    obtain ⟨ka, va⟩ := a
    simp at h
    push_neg at h
    rw [List.lookup]
    have : (k == ka) = false := by
      simp [h.1]
    rw [this]
    exact ih (by simpa using h.2)

theorem lookup_eraseP_of_nodup (l : List (String × Int)) (k : String)
    (h : (l.map Prod.fst).Nodup) :
    (l.eraseP (fun p => p.1 == k)).lookup k = none := by
  induction l with
  | nil => rfl
  | cons a t ih =>
    obtain ⟨ka, va⟩ := a
    rw [List.map_cons, List.nodup_cons] at h
    by_cases hk : ka = k
    · rw [List.eraseP_cons_of_pos (by simp [hk])]
      subst hk
      exact lookup_eq_none_of_not_mem t ka h.1
    · rw [List.eraseP_cons_of_neg (by simp [hk])]
      rw [List.lookup]
      have : (k == ka) = false := by
        simp [Ne.symm hk]
      rw [this]
      exact ih h.2

/-- C9: session lazy expiry.  For a token absent from the registry,
validate_session returns False without modifying the registry.  For a token
whose entry was created at `created`, it returns False and removes exactly
that entry when the elapsed time strictly exceeds the configured timeout (in
seconds, session_timeout_minutes * 60), so a subsequent lookup of the token
misses when registry keys are unique; otherwise it returns True and leaves
the registry untouched. -/
theorem validate_session_lazy_expiry (timeout_minutes : Nat) (now : Int)
    (sessions : List (String × Int)) (session_id : String) :
    (sessions.lookup session_id = none →
      validate_session timeout_minutes now sessions session_id
        = (false, sessions)) ∧
    (∀ created, sessions.lookup session_id = some created →
      ((timeout_minutes : Int) * 60 < now - created →
        validate_session timeout_minutes now sessions session_id =
          (false, sessions.eraseP (fun p => p.1 == session_id)) ∧
        ((sessions.map Prod.fst).Nodup →
          (validate_session timeout_minutes now sessions session_id).2.lookup
            session_id = none)) ∧
      (now - created ≤ (timeout_minutes : Int) * 60 →
        validate_session timeout_minutes now sessions session_id
          = (true, sessions))) := by
  refine ⟨?_, ?_⟩
  · intro h
    simp [validate_session, h]
  · intro created hc
    refine ⟨fun hexp => ⟨?_, fun hnodup => ?_⟩, fun hnot => ?_⟩
    · simp [validate_session, hc, hexp]
    · have hv : validate_session timeout_minutes now sessions session_id =
          (false, sessions.eraseP (fun p => p.1 == session_id)) := by
        simp [validate_session, hc, hexp]
      rw [hv]
      exact lookup_eraseP_of_nodup sessions session_id hnodup
    · simp [validate_session, hc, not_lt.mpr hnot]

/-- C9 witness: a 30-minute timeout with a token issued at time 0 — expired
and evicted at t = 2000 s, still valid and retained at t = 100 s, and an
unknown token refused without registry modification. -/
theorem validate_session_witness :
    validate_session 30 2000 [("tok", 0)] "tok" = (false, []) ∧
    (validate_session 30 2000 [("tok", 0)] "tok").2.lookup "tok" = none ∧
    validate_session 30 100 [("tok", 0)] "tok" = (true, [("tok", 0)]) ∧
    validate_session 30 2000 [("tok", 0)] "other" = (false, [("tok", 0)]) :=
  ⟨(((validate_session_lazy_expiry 30 2000 [("tok", 0)] "tok").2 0 rfl).1
      (by decide)).1,
   (((validate_session_lazy_expiry 30 2000 [("tok", 0)] "tok").2 0 rfl).1
      (by decide)).2 (by decide),
   ((validate_session_lazy_expiry 30 100 [("tok", 0)] "tok").2 0 rfl).2
      (by decide),
   (validate_session_lazy_expiry 30 2000 [("tok", 0)] "other").1 rfl⟩

/-- C10: silent origin coercion.  log_action never rejects an event because
of its ip_address argument: whatever the string, once the rate check and the
details / session_id validations pass, the event is recorded, its stored
origin being the IP supplied by the caller when it matches the IPv4 pattern or the
simplified (lower-cased) IPv6 pattern and the placeholder "0.0.0.0"
otherwise, and the checksum input is built from that coerced origin. -/
theorem log_action_ip_coercion (rk : Except SecError Unit)
    (dv sv : Except SecError String) (user_id : Int) (action : String)
    (ip_address : String) (d s : String)
    (hr : rk = Except.ok ()) (hd : dv = Except.ok d) (hs : sv = Except.ok s) :
    log_action rk dv sv user_id action ip_address =
      Except.ok
        { user_id := user_id
          action := action
          details := d
          session_id := s
          origin := validate_ip ip_address
          checksum_input := toString user_id ++ "|" ++ action ++ "|" ++ d
            ++ "|" ++ validate_ip ip_address } ∧
    ((ipv4_match ip_address || ipv6_match (pyLower ip_address)) = true →
      validate_ip ip_address = ip_address) ∧
    ((ipv4_match ip_address || ipv6_match (pyLower ip_address)) = false →
      validate_ip ip_address = "0.0.0.0") := by
  subst hr
  subst hd
  subst hs
  refine ⟨rfl, ?_, ?_⟩
  · intro h
    simp [validate_ip, h]
  · intro h
    simp [validate_ip, h]

/-- C10 witness: a malformed origin string is coerced to the placeholder in
the recorded event and its checksum input, while a well-formed IPv4 origin
is stored unchanged. -/
theorem log_action_ip_coercion_witness :
    log_action (Except.ok ()) (Except.ok "details") (Except.ok "sess") 7 "LOGIN"
        "not-an-ip" =
      Except.ok
        { user_id := 7
          action := "LOGIN"
          details := "details"
          session_id := "sess"
          origin := "0.0.0.0"
          checksum_input := toString (7 : Int) ++ "|" ++ "LOGIN" ++ "|"
            ++ "details" ++ "|" ++ "0.0.0.0" } ∧
    validate_ip "not-an-ip" = "0.0.0.0" ∧
    validate_ip "10.0.0.1" = "10.0.0.1" :=
  ⟨by
    have h := (log_action_ip_coercion (Except.ok ()) (Except.ok "details")
      (Except.ok "sess") 7 "LOGIN" "not-an-ip" "details" "sess" rfl rfl rfl).1
    simpa [(by decide : validate_ip "not-an-ip" = "0.0.0.0")] using h,
   (log_action_ip_coercion (Except.ok ()) (Except.ok "details")
      (Except.ok "sess") 7 "LOGIN" "not-an-ip" "details" "sess" rfl rfl rfl).2.2
      (by decide),
   (log_action_ip_coercion (Except.ok ()) (Except.ok "details")
      (Except.ok "sess") 7 "LOGIN" "10.0.0.1" "details" "sess" rfl rfl rfl).2.1
      (by decide)⟩

end HIPAA
